import Mathlib

/-!
Verification of the backend-agnostic dataframe adapter in
`sportypy/data/frames.py` (`wrap_frame`, `to_native`, `create_empty_frame`,
`concat_frames`).

The adapter is a thin layer over the Narwhals library, which in turn
dispatches to the Polars or Pandas engine.  The adapter's own code
(`frames.py`) is embedded line by line; the behaviour of the external
Narwhals/Polars/Pandas primitives it calls (`nw.from_native`,
`DataFrame.to_native`, `pl.DataFrame(schema=...)`, `pd.DataFrame(...).astype`,
`nw.concat`) is modelled from those libraries' documented stable behaviour,
since they are third-party dependencies and their sources are not part of
this repository.  Each such definition carries a doc comment saying exactly
what it models.

Data model: a native table is an ordered list of named, typed columns plus a
list of rows; each row is a positional list of cell values.  Errors raised by
the Python code are modelled as `Except` results, with constructors named
after the specification's error taxonomy; each constructor's doc comment
records the concrete Python exception it stands for.
-/

/-- The two table backends supported by the adapter (`frames.py` docstring:
"works with both Polars (preferred) and Pandas backends via Narwhals"). -/
inductive Backend where
  | polars
  | pandas
deriving DecidableEq, Repr

/-- Python `type` values that can appear as values of the `schema` dict of
`create_empty_frame`.  The four recognised types are `int`, `float`, `str`
and `bool`; `other` stands for any Python type outside that set (those hit
the default of `dict.get` in the two `type_map` lookups). -/
inductive PyType where
  | int
  | float
  | str
  | bool
  | other (name : String)
deriving DecidableEq, Repr

/-- Polars data types used by `create_empty_frame`'s polars branch
(`pl.Int64`, `pl.Float64`, `pl.Utf8`, `pl.Boolean`). -/
inductive PlDtype where
  | Int64
  | Float64
  | Utf8
  | Boolean
deriving DecidableEq, Repr

/-- The concrete storage type of a column: either a Polars dtype or a Pandas
dtype string (such as "int64", "float64", "object", "bool"). -/
inductive Dtype where
  | pl (d : PlDtype)
  | pd (s : String)
deriving DecidableEq, Repr

/-- A cell value.  Claims only move values around (stacking, null filling),
never compute with them, so a float cell carries its bit pattern as an
uninterpreted payload and `null` models the backend's missing-value marker
(Polars `null` / Pandas `NaN`). -/
inductive Value where
  | intV (n : Int)
  | floatV (bits : Nat)
  | strV (s : String)
  | boolV (b : Bool)
  | null
deriving DecidableEq, Repr

/-- A native table of one of the two engines: an ordered sequence of named
columns, each with a declared element type, and a list of rows, each row a
positional list of cells (spec §3, NativeTable). -/
structure NativeTable where
  backend : Backend
  columns : List (String × Dtype)
  rows : List (List Value)
deriving DecidableEq, Repr

/-- A table is well formed when every row has one cell per column.  Real
engines enforce this shape invariant on construction. -/
def NativeTable.rectangular (t : NativeTable) : Prop :=
  ∀ r ∈ t.rows, r.length = t.columns.length

/-- A table has a well-formed header when its column names are pairwise
distinct.  Both engines reject duplicate column names on construction. -/
def NativeTable.uniqueNames (t : NativeTable) : Prop :=
  (t.columns.map Prod.fst).Nodup

/-- An arbitrary Python value passed to `wrap_frame`: either a native table
of a supported backend or some non-tabular object. -/
inductive PyObject where
  | frame (t : NativeTable)
  | nonTabular (s : String)
deriving DecidableEq, Repr

/-- A Narwhals `nw.DataFrame`: a backend-neutral handle referencing exactly
one native table (spec §3, WrappedTable). -/
structure NwDataFrame where
  native : NativeTable
deriving DecidableEq, Repr

/-- Errors surfaced by the adapter, named after the specification's error
taxonomy (§7).  Each constructor records the concrete Python exception it
models. -/
inductive AdapterError where
  /-- `ValueError("Unsupported backend: ...")` raised by `create_empty_frame`,
  and the `TypeError` raised by `nw.from_native` on a non-tabular input. -/
  | unsupportedBackend
  /-- The engine error propagated by `nw.concat` when a strict mode meets
  incompatible schemas (for Polars, `ShapeError`/`SchemaError` from
  `pl.concat`). -/
  | schemaMismatch
  /-- `ValueError("No items to concatenate")` raised by `nw.concat` on an
  empty input list. -/
  | emptyInput
  /-- `NotImplementedError("Only vertical, horizontal and diagonal
  concatenations are supported.")` raised by `nw.concat` for any other
  `how` string. -/
  | unsupportedMode
  /-- The error raised when the frames handed to `nw.concat` do not all
  belong to the same backend. -/
  | backendMismatch
  /-- The engine error for a horizontal concatenation of tables with
  different row counts. -/
  | shapeMismatch
  /-- The engine error (Polars `DuplicateError`) for a horizontal
  concatenation producing duplicate column names. -/
  | duplicateColumn
deriving DecidableEq, Repr

deriving instance DecidableEq for Except

/-- Models `nw.from_native`: wraps a recognised native table in a Narwhals
`DataFrame` without copying; raises (`TypeError`, modelled as
`unsupportedBackend`) on any input that is not a recognised tabular type. -/
def nw_from_native : PyObject → Except AdapterError NwDataFrame
  | .frame t => .ok ⟨t⟩
  | .nonTabular _ => .error .unsupportedBackend

/-- `wrap_frame(df)` from `frames.py`: `return nw.from_native(df)`. -/
def wrap_frame (df : PyObject) : Except AdapterError NwDataFrame :=
  nw_from_native df

/-- `to_native(df)` from `frames.py`: `return df.to_native()`.  Models
Narwhals `DataFrame.to_native`, which returns the underlying native table. -/
def to_native (df : NwDataFrame) : NativeTable :=
  df.native

/-- The polars branch's `type_map` dict lookup:
`{int: pl.Int64, float: pl.Float64, str: pl.Utf8, bool: pl.Boolean}` read
with `.get(dtype, pl.Utf8)`. -/
def polars_type_map : PyType → PlDtype
  | .int => .Int64
  | .float => .Float64
  | .str => .Utf8
  | .bool => .Boolean
  | .other _ => .Utf8

/-- The pandas branch's `type_map` dict lookup:
`{int: "int64", float: "float64", str: "object", bool: "bool"}` read with
`.get(dtype, "object")`. -/
def pandas_type_map : PyType → String
  | .int => "int64"
  | .float => "float64"
  | .str => "object"
  | .bool => "bool"
  | .other _ => "object"

/-- Models `pl.DataFrame(schema=pl_schema)` as built by the polars branch of
`create_empty_frame`: a zero-row polars table whose columns follow the
schema dict's iteration order with the mapped dtypes. -/
def polars_empty_native (schema : List (String × PyType)) : NativeTable :=
  { backend := .polars
    columns := schema.map (fun p => (p.1, Dtype.pl (polars_type_map p.2)))
    rows := [] }

/-- Models `pd.DataFrame(columns=list(schema.keys())).astype(pd_schema)` as
built by the pandas branch of `create_empty_frame`: a zero-row pandas table
whose columns follow the schema dict's iteration order with the mapped
dtype strings. -/
def pandas_empty_native (schema : List (String × PyType)) : NativeTable :=
  { backend := .pandas
    columns := schema.map (fun p => (p.1, Dtype.pd (pandas_type_map p.2)))
    rows := [] }

/-- `create_empty_frame(schema, backend="polars")` from `frames.py`.  The
schema dict is embedded as an association list in iteration order (Python
dicts preserve insertion order and have unique keys).  Mirrors the
`if backend == "polars" / elif backend == "pandas" / else raise ValueError`
chain, then the final `return nw.from_native(native_df)`. -/
def create_empty_frame (schema : List (String × PyType))
    (backend : String := "polars") : Except AdapterError NwDataFrame :=
  if backend = "polars" then
    nw_from_native (.frame (polars_empty_native schema))
  else if backend = "pandas" then
    nw_from_native (.frame (pandas_empty_native schema))
  else
    .error .unsupportedBackend

/-- The cell stored in row `r` (positionally aligned with `cols`) for the
column named `name`, or the missing-value marker when that column is absent.
Helper for the diagonal-concatenation model. -/
def lookupCell : List (String × Dtype) → List Value → String → Value
  | [], _, _ => .null
  | _ :: _, [], _ => .null
  | c :: cs, v :: vs, name => if c.1 = name then v else lookupCell cs vs name

/-- Models the strict vertical concatenation performed by the engines under
`nw.concat(..., how="vertical")` (Polars `vstack`): every frame must carry
exactly the first frame's columns (same names, order and dtypes), and the
result stacks all rows in input order under the first frame's header. -/
def vertical_concat (first : NativeTable) (rest : List NativeTable) :
    Except AdapterError NativeTable :=
  if rest.all (fun t => decide (t.columns = first.columns)) then
    .ok { backend := first.backend
          columns := first.columns
          rows := ((first :: rest).map NativeTable.rows).flatten }
  else
    .error .schemaMismatch

/-- Models the horizontal concatenation performed by the engines under
`nw.concat(..., how="horizontal")`: column lists are appended (duplicate
names rejected), row counts must agree, and rows are glued side by side. -/
def horizontal_concat (first : NativeTable) (rest : List NativeTable) :
    Except AdapterError NativeTable :=
  if ((((first :: rest).map NativeTable.columns).flatten.map Prod.fst).Nodup : Prop) then
    if rest.all (fun t => decide (t.rows.length = first.rows.length)) then
      .ok { backend := first.backend
            columns := ((first :: rest).map NativeTable.columns).flatten
            rows := (List.range first.rows.length).map
              (fun i => (((first :: rest)).map (fun t => t.rows.getD i [])).flatten) }
    else
      .error .shapeMismatch
  else
    .error .duplicateColumn

/-- The union of the frames' column lists in first-occurrence order, as
computed by the engines' diagonal concatenation. -/
def diagonalColumns (ts : List NativeTable) : List (String × Dtype) :=
  ts.foldl
    (fun acc t => acc ++ t.columns.filter (fun c => acc.all (fun a => decide (a.1 ≠ c.1))))
    []

/-- Models the strict diagonal concatenation performed by the engines under
`nw.concat(..., how="diagonal")` (Polars documents it as "finds a union
between the column schemas and fills missing column values with null"):
columns are unioned in first-occurrence order, a column name shared between
frames must keep one dtype, and every row is re-laid-out over the union with
the missing-value marker in the cells of columns absent from its frame. -/
def diagonal_concat (ts : List NativeTable) (b : Backend) :
    Except AdapterError NativeTable :=
  if ts.all (fun t => t.columns.all
      (fun c => (diagonalColumns ts).all (fun u => decide (u.1 = c.1 → u.2 = c.2)))) then
    .ok { backend := b
          columns := diagonalColumns ts
          rows := (ts.map (fun t => t.rows.map
            (fun r => (diagonalColumns ts).map (fun u => lookupCell t.columns r u.1)))).flatten }
  else
    .error .schemaMismatch

/-- Models `nw.concat(items, how=how)` from the Narwhals library: the `how`
string is validated first against the three supported modes (anything else
raises `NotImplementedError`), an empty item list then raises `ValueError`,
and otherwise the call dispatches to the first frame's backend, which
requires all frames to share that backend. -/
def nw_concat (items : List NwDataFrame) (how : String) :
    Except AdapterError NwDataFrame :=
  if how = "horizontal" ∨ how = "vertical" ∨ how = "diagonal" then
    match items with
    | [] => .error .emptyInput
    | first :: rest =>
      let ts := rest.map NwDataFrame.native
      if ts.all (fun t => decide (t.backend = first.native.backend)) then
        if how = "vertical" then
          (vertical_concat first.native ts).map NwDataFrame.mk
        else if how = "horizontal" then
          (horizontal_concat first.native ts).map NwDataFrame.mk
        else
          (diagonal_concat (first.native :: ts) first.native.backend).map NwDataFrame.mk
      else
        .error .backendMismatch
  else
    .error .unsupportedMode

/-- `concat_frames(frames, how="vertical")` from `frames.py`:
`return nw.concat(frames, how=how)`. -/
def concat_frames (frames : List NwDataFrame) (how : String := "vertical") :
    Except AdapterError NwDataFrame :=
  nw_concat frames how


/-- C1: Round-trip identity — for every native table `t` of a supported
backend, wrapping it with `wrap_frame` succeeds and `to_native` of the
wrapper returns the very same table: same backend, identical column names,
column order, column types and row values. -/
theorem wrap_frame_to_native_roundtrip (t : NativeTable) :
    ∃ w, wrap_frame (.frame t) = .ok w ∧
      to_native w = t ∧
      (to_native w).backend = t.backend ∧
      (to_native w).columns = t.columns ∧
      (to_native w).rows = t.rows :=
  ⟨⟨t⟩, rfl, rfl, rfl, rfl, rfl⟩

/-- C2: Schema fidelity of empty-table creation — for every schema mapping
with unique string keys and each supported backend, `create_empty_frame`
succeeds and yields a table with exactly `schema.length` columns, zero rows,
and column order equal to the mapping's iteration order. -/
theorem create_empty_frame_schema_fidelity (s : List (String × PyType)) (b : String)
    (huniq : (s.map Prod.fst).Nodup) (hb : b = "polars" ∨ b = "pandas") :
    ∃ df, create_empty_frame s b = .ok df ∧
      df.native.columns.length = s.length ∧
      df.native.columns.map Prod.fst = s.map Prod.fst ∧
      df.native.rows = [] := by
  rcases hb with h | h <;> subst h
  · exact ⟨⟨polars_empty_native s⟩, rfl, by simp [polars_empty_native],
      by simp [polars_empty_native], rfl⟩
  · exact ⟨⟨pandas_empty_native s⟩, rfl, by simp [pandas_empty_native],
      by simp [pandas_empty_native], rfl⟩

theorem create_empty_frame_schema_fidelity_witness :
    ([("id", PyType.int), ("score", PyType.float)].map Prod.fst).Nodup ∧
    ∃ df, create_empty_frame [("id", PyType.int), ("score", PyType.float)] "polars" = .ok df ∧
      df.native.columns.length = 2 ∧
      df.native.columns.map Prod.fst = ["id", "score"] ∧
      df.native.rows = [] :=
  ⟨by decide, by
    obtain ⟨df, h1, h2, h3, h4⟩ :=
      create_empty_frame_schema_fidelity [("id", PyType.int), ("score", PyType.float)]
        "polars" (by decide) (Or.inl rfl)
    exact ⟨df, h1, h2, h3, h4⟩⟩

/-- C3: Logical-type mapping of `create_empty_frame` — each stored column
type is the backend's mapped concrete type: for polars, int ↦ `Int64`,
float ↦ `Float64`, str ↦ `Utf8`, bool ↦ `Boolean`; for pandas, int ↦
"int64", float ↦ "float64", str ↦ "object", bool ↦ "bool"; and every
Python type outside that set defaults to the text storage type
(`Utf8` / "object"). -/
theorem create_empty_frame_type_mapping (s : List (String × PyType)) :
    (∃ df, create_empty_frame s "polars" = .ok df ∧
      df.native.columns = s.map (fun p => (p.1, Dtype.pl (polars_type_map p.2)))) ∧
    (∃ df, create_empty_frame s "pandas" = .ok df ∧
      df.native.columns = s.map (fun p => (p.1, Dtype.pd (pandas_type_map p.2)))) ∧
    polars_type_map .int = .Int64 ∧ polars_type_map .float = .Float64 ∧
    polars_type_map .str = .Utf8 ∧ polars_type_map .bool = .Boolean ∧
    pandas_type_map .int = "int64" ∧ pandas_type_map .float = "float64" ∧
    pandas_type_map .str = "object" ∧ pandas_type_map .bool = "bool" ∧
    (∀ n, polars_type_map (.other n) = .Utf8) ∧
    (∀ n, pandas_type_map (.other n) = "object") :=
  ⟨⟨⟨polars_empty_native s⟩, rfl, rfl⟩, ⟨⟨pandas_empty_native s⟩, rfl, rfl⟩,
    rfl, rfl, rfl, rfl, rfl, rfl, rfl, rfl, fun _ => rfl, fun _ => rfl⟩

/-- C6: Unsupported-backend rejection at the boundary — for every backend
identifier outside {"polars", "pandas"}, `create_empty_frame` fails with
the unsupported-backend error, and for every non-tabular input value,
`wrap_frame` fails with the unsupported-backend error. -/
theorem unsupported_backend_rejected (b : String) (s : List (String × PyType)) (v : String)
    (hb1 : b ≠ "polars") (hb2 : b ≠ "pandas") :
    create_empty_frame s b = .error .unsupportedBackend ∧
    wrap_frame (.nonTabular v) = .error .unsupportedBackend := by
  refine ⟨?_, rfl⟩
  simp [create_empty_frame, hb1, hb2]

theorem unsupported_backend_rejected_witness :
    create_empty_frame [("x", PyType.int)] "unsupported_engine" = .error .unsupportedBackend ∧
    wrap_frame (.nonTabular "not a table") = .error .unsupportedBackend :=
  unsupported_backend_rejected "unsupported_engine" [("x", PyType.int)] "not a table"
    (by decide) (by decide)

/-- C9: `create_empty_frame` always returns a wrapped (backend-neutral)
table, never a bare native one — for every schema and each supported
backend, its result is exactly `wrap_frame` applied to the natively
constructed empty table, and `to_native` recovers that native table. -/
theorem create_empty_frame_returns_wrapped (s : List (String × PyType)) :
    create_empty_frame s "polars" = wrap_frame (.frame (polars_empty_native s)) ∧
    create_empty_frame s "pandas" = wrap_frame (.frame (pandas_empty_native s)) ∧
    (∃ df, create_empty_frame s "polars" = .ok df ∧ to_native df = polars_empty_native s) ∧
    (∃ df, create_empty_frame s "pandas" = .ok df ∧ to_native df = pandas_empty_native s) :=
  ⟨rfl, rfl, ⟨⟨polars_empty_native s⟩, rfl, rfl⟩, ⟨⟨pandas_empty_native s⟩, rfl, rfl⟩⟩

/-- C10: Singleton concatenation succeeds — for every single wrapped table
`f`, `concat_frames [f]` under the default mode "vertical" does not raise
and returns a table with the same backend, columns, column order and rows
as `f`. -/
theorem concat_frames_singleton (f : NwDataFrame) :
    ∃ out, concat_frames [f] "vertical" = .ok out ∧
      out.native.backend = f.native.backend ∧
      out.native.columns = f.native.columns ∧
      out.native.rows = f.native.rows := by
  refine ⟨⟨⟨f.native.backend, f.native.columns, f.native.rows⟩⟩, ?_, rfl, rfl, rfl⟩
  simp [concat_frames, nw_concat, vertical_concat, Except.map]

/-- C7: Vertical concat ordering and size — for all same-backend tables
`f1`, `f2` with identical schemas, `concat_frames [f1, f2]` under mode
"vertical" succeeds; its row count is `rows f1 + rows f2`, its rows are
`f1`'s rows followed by `f2`'s rows in input order, and its column order is
`f1`'s column order. -/
theorem concat_frames_vertical_pair (f1 f2 : NwDataFrame)
    (hb : f2.native.backend = f1.native.backend)
    (hc : f2.native.columns = f1.native.columns) :
    ∃ out, concat_frames [f1, f2] "vertical" = .ok out ∧
      out.native.rows.length = f1.native.rows.length + f2.native.rows.length ∧
      out.native.rows = f1.native.rows ++ f2.native.rows ∧
      out.native.columns = f1.native.columns := by
  refine ⟨⟨⟨f1.native.backend, f1.native.columns, f1.native.rows ++ f2.native.rows⟩⟩,
    ?_, by simp, rfl, rfl⟩
  simp [concat_frames, nw_concat, vertical_concat, hb, hc, Except.map]

theorem concat_frames_vertical_pair_witness :
    ∃ out, concat_frames
        [⟨⟨.polars, [("a", .pl .Int64)], [[.intV 1], [.intV 2]]⟩⟩,
         ⟨⟨.polars, [("a", .pl .Int64)], [[.intV 3]]⟩⟩] "vertical" = .ok out ∧
      out.native.rows.length = 2 + 1 ∧
      out.native.rows = [[.intV 1], [.intV 2]] ++ [[.intV 3]] ∧
      out.native.columns = [("a", .pl .Int64)] :=
  concat_frames_vertical_pair
    ⟨⟨.polars, [("a", .pl .Int64)], [[.intV 1], [.intV 2]]⟩⟩
    ⟨⟨.polars, [("a", .pl .Int64)], [[.intV 3]]⟩⟩ rfl rfl

/-- C5 counterexample: with the concrete input `frames = []`, `how =
"align"`, `concat_frames` fails with the unsupported-mode rejection (the
`how` string is validated before the emptiness check), not with the
empty-input error the claim requires for every mode. -/
theorem concat_frames_empty_align_counterexample :
    concat_frames [] "align" = .error .unsupportedMode ∧
    concat_frames [] "align" ≠ .error .emptyInput := by decide

/-- C5 (amended): `concat_frames` applied to an empty sequence of frames
fails with the empty-input error for every mode the function accepts
("vertical", "horizontal", "diagonal"), in particular the default
"vertical"; an unrecognised mode string is rejected with the
unsupported-mode error before the input list is inspected. -/
theorem concat_frames_empty_rejected (how : String)
    (h : how = "vertical" ∨ how = "horizontal" ∨ how = "diagonal") :
    concat_frames [] how = .error .emptyInput := by
  rcases h with h | h | h <;> subst h <;> rfl

theorem concat_frames_empty_rejected_witness :
    concat_frames [] "vertical" = .error .emptyInput :=
  concat_frames_empty_rejected "vertical" (Or.inl rfl)

/-- Helper: a vertical concatenation either succeeds or reports a schema
mismatch; it never reports an unsupported mode. -/
lemma vertical_concat_error_eq (first : NativeTable) (rest : List NativeTable)
    (e : AdapterError) (h : vertical_concat first rest = .error e) :
    e = .schemaMismatch := by
  unfold vertical_concat at h
  split at h
  · exact absurd h (by simp)
  · simpa using h.symm

/-- Helper: a horizontal concatenation only ever reports duplicate-column or
shape errors; it never reports an unsupported mode. -/
lemma horizontal_concat_error_eq (first : NativeTable) (rest : List NativeTable)
    (e : AdapterError) (h : horizontal_concat first rest = .error e) :
    e = .duplicateColumn ∨ e = .shapeMismatch := by
  unfold horizontal_concat at h
  split at h
  · split at h
    · exact absurd h (by simp)
    · exact Or.inr (by simpa using h.symm)
  · exact Or.inl (by simpa using h.symm)

/-- Helper: a diagonal concatenation either succeeds or reports a schema
mismatch; it never reports an unsupported mode. -/
lemma diagonal_concat_error_eq (ts : List NativeTable) (b : Backend)
    (e : AdapterError) (h : diagonal_concat ts b = .error e) :
    e = .schemaMismatch := by
  unfold diagonal_concat at h
  split at h
  · exact absurd h (by simp)
  · simpa using h.symm

/-- Helper: mapping the wrapper constructor over a result that can only
carry the listed errors cannot produce the unsupported-mode error. -/
lemma map_mk_ne_unsupportedMode (x : Except AdapterError NativeTable)
    (hx : ∀ e, x = .error e → e ≠ .unsupportedMode) :
    x.map NwDataFrame.mk ≠ .error .unsupportedMode := by
  intro h
  cases x with
  | ok t => simp [Except.map] at h
  | error e => exact hx e rfl (by simpa [Except.map] using h)

/-- C8 counterexample: with a concrete valid single-frame input and the
mode identifier "vertical_relaxed" (one of the six the claim lists),
`concat_frames` does fail with the unsupported-mode rejection. -/
theorem concat_frames_vertical_relaxed_counterexample :
    concat_frames [⟨⟨.polars, [("a", .pl .Int64)], [[.intV 1]]⟩⟩] "vertical_relaxed" =
      .error .unsupportedMode := by decide

/-- C8 (amended): `concat_frames` accepts exactly the three mode
identifiers "vertical", "horizontal" and "diagonal" — for those, no input
is ever rejected with the unsupported-mode error — while the identifiers
"vertical_relaxed", "diagonal_relaxed" and "align" are always rejected
with the unsupported-mode error, whatever the input frames. -/
theorem concat_frames_mode_coverage (fs : List NwDataFrame) (how : String) :
    (how = "vertical" ∨ how = "horizontal" ∨ how = "diagonal" →
      concat_frames fs how ≠ .error .unsupportedMode) ∧
    (how = "vertical_relaxed" ∨ how = "diagonal_relaxed" ∨ how = "align" →
      concat_frames fs how = .error .unsupportedMode) := by
  constructor
  · intro hm
    unfold concat_frames nw_concat
    rw [if_pos (by tauto)]
    cases fs with
    | nil => simp
    | cons first rest =>
      dsimp only
      split
      · split
        · exact map_mk_ne_unsupportedMode _
            (fun e he hcontra => by
              cases hcontra
              exact absurd (vertical_concat_error_eq _ _ _ he) (by decide))
        · split
          · exact map_mk_ne_unsupportedMode _
              (fun e he hcontra => by
                cases hcontra
                rcases horizontal_concat_error_eq _ _ _ he with h | h <;> exact absurd h (by decide))
          · exact map_mk_ne_unsupportedMode _
              (fun e he hcontra => by
                cases hcontra
                exact absurd (diagonal_concat_error_eq _ _ _ he) (by decide))
      · simp
  · rintro (h | h | h) <;> subst h <;> rfl

theorem concat_frames_mode_coverage_witness :
    concat_frames [] "vertical" ≠ .error .unsupportedMode ∧
    concat_frames [] "diagonal_relaxed" = .error .unsupportedMode :=
  ⟨(concat_frames_mode_coverage [] "vertical").1 (Or.inl rfl),
   (concat_frames_mode_coverage [] "diagonal_relaxed").2 (Or.inr (Or.inl rfl))⟩

/-- Helper: reading every column of a row back by name returns the row,
provided the row is positionally aligned with the columns and the column
names are pairwise distinct. -/
lemma lookupCell_read_all (cols : List (String × Dtype)) (r : List Value)
    (hlen : r.length = cols.length) (hnd : (cols.map Prod.fst).Nodup) :
    cols.map (fun c => lookupCell cols r c.1) = r := by
  induction cols generalizing r with
  | nil =>
    cases r with
    | nil => rfl
    | cons v vs => simp at hlen
  | cons c cs ih =>
    cases r with
    | nil => simp at hlen
    | cons v vs =>
      rw [List.map_cons, List.nodup_cons] at hnd
      obtain ⟨hc, hcs⟩ := hnd
      rw [List.map_cons]
      have hhead : lookupCell (c :: cs) (v :: vs) c.1 = v := by
        simp [lookupCell]
      have htail : ∀ c' ∈ cs, lookupCell (c :: cs) (v :: vs) c'.1 = lookupCell cs vs c'.1 := by
        intro c' hc'
        have hne : c.1 ≠ c'.1 := fun he => hc (he ▸ List.mem_map_of_mem Prod.fst hc')
        simp [lookupCell, hne]
      rw [hhead, List.map_congr_left htail, ih vs (by simpa using hlen) hcs]

/-- Helper: looking up a name that is not among the columns yields the
missing-value marker. -/
lemma lookupCell_absent (cols : List (String × Dtype)) (r : List Value) (name : String)
    (h : name ∉ cols.map Prod.fst) : lookupCell cols r name = .null := by
  induction cols generalizing r with
  | nil => cases r <;> rfl
  | cons c cs ih =>
    cases r with
    | nil => rfl
    | cons v vs =>
      rw [List.map_cons, List.mem_cons] at h
      push_neg at h
      have hne : c.1 ≠ name := fun he => h.1 he.symm
      simp [lookupCell, hne, ih vs h.2]

/-- Helper: a map whose function is constant on the list is a replicate. -/
lemma map_eq_replicate_of_const {α β : Type} (l : List α) (f : α → β) (b : β)
    (h : ∀ x ∈ l, f x = b) : l.map f = List.replicate l.length b := by
  induction l with
  | nil => rfl
  | cons x xs ih =>
    rw [List.map_cons, h x (List.mem_cons_self x xs), List.length_cons,
      List.replicate_succ, ih (fun y hy => h y (List.mem_cons_of_mem x hy))]

/-- Helper: for two tables with disjoint column-name sets, the diagonal
column union is the two column lists appended in order. -/
lemma diagonalColumns_disjoint_pair (t1 t2 : NativeTable)
    (hdisj : ∀ n ∈ t1.columns.map Prod.fst, n ∉ t2.columns.map Prod.fst) :
    diagonalColumns [t1, t2] = t1.columns ++ t2.columns := by
  unfold diagonalColumns
  rw [List.foldl_cons, List.foldl_cons, List.foldl_nil]
  simp only [List.all_nil, List.filter_true, List.nil_append]
  congr 1
  apply List.filter_eq_self.mpr
  intro c hcmem
  rw [List.all_eq_true]
  intro a hamem
  have : a.1 ≠ c.1 := by
    intro he
    exact hdisj a.1 (List.mem_map_of_mem Prod.fst hamem)
      (he ▸ List.mem_map_of_mem Prod.fst hcmem)
  simpa using this

/-- Helper: strict diagonal concatenation of two tables with disjoint
column names succeeds, unions the columns in order, keeps each table's own
cells, and fills the cells of the columns absent from a table with the
missing-value marker. -/
lemma diagonal_concat_disjoint_pair (t1 t2 : NativeTable) (b : Backend)
    (hn1 : t1.uniqueNames) (hn2 : t2.uniqueNames)
    (hr1 : t1.rectangular) (hr2 : t2.rectangular)
    (hdisj : ∀ n ∈ t1.columns.map Prod.fst, n ∉ t2.columns.map Prod.fst) :
    diagonal_concat [t1, t2] b = .ok
      { backend := b
        columns := t1.columns ++ t2.columns
        rows := t1.rows.map (fun r => r ++ List.replicate t2.columns.length Value.null) ++
                t2.rows.map (fun r => List.replicate t1.columns.length Value.null ++ r) } := by
  have hu := diagonalColumns_disjoint_pair t1 t2 hdisj
  unfold diagonal_concat
  rw [hu, if_pos ?hcheck]
  case hcheck =>
    simp only [List.all_eq_true, decide_eq_true_eq, List.mem_cons,
      List.not_mem_nil, or_false, List.mem_append]
    rintro t (rfl | rfl) c hcmem u humem hname
    · rcases humem with hu1 | hu2
      · exact congrArg Prod.snd (List.inj_on_of_nodup_map hn1 hu1 hcmem hname)
      · exact absurd (hname ▸ List.mem_map_of_mem Prod.fst hu2)
          (fun hx => hdisj c.1 (List.mem_map_of_mem Prod.fst hcmem)
            (by simpa [hname] using List.mem_map_of_mem Prod.fst hu2))
    · rcases humem with hu1 | hu2
      · exact absurd (List.mem_map_of_mem Prod.fst hcmem)
          (fun hx => hdisj u.1 (List.mem_map_of_mem Prod.fst hu1) (hname ▸ hx))
      · exact congrArg Prod.snd (List.inj_on_of_nodup_map hn2 hu2 hcmem hname)
  · congr 1
    simp only [List.map_cons, List.map_nil, List.flatten_cons, List.flatten_nil,
      List.append_nil]
    have e1 : t1.rows.map
        (fun r => (t1.columns ++ t2.columns).map (fun u => lookupCell t1.columns r u.1)) =
        t1.rows.map (fun r => r ++ List.replicate t2.columns.length Value.null) := by
      apply List.map_congr_left
      intro r hrmem
      rw [List.map_append, lookupCell_read_all t1.columns r (hr1 r hrmem) hn1]
      congr 1
      apply map_eq_replicate_of_const
      intro u humem
      apply lookupCell_absent
      intro hx
      exact hdisj u.1 hx (List.mem_map_of_mem Prod.fst humem)
    have e2 : t2.rows.map
        (fun r => (t1.columns ++ t2.columns).map (fun u => lookupCell t2.columns r u.1)) =
        t2.rows.map (fun r => List.replicate t1.columns.length Value.null ++ r) := by
      apply List.map_congr_left
      intro r hrmem
      rw [List.map_append, lookupCell_read_all t2.columns r (hr2 r hrmem) hn2]
      congr 1
      apply map_eq_replicate_of_const
      intro u humem
      apply lookupCell_absent
      exact hdisj u.1 (List.mem_map_of_mem Prod.fst humem)
    rw [e1, e2]

/-- C4 counterexample: two zero-column tables have (vacuously) disjoint
column sets, yet vertical concatenation of this concrete pair succeeds and
returns an empty table instead of failing with the schema-mismatch error
the claim requires for every disjoint pair. -/
theorem concat_frames_disjoint_vertical_counterexample :
    concat_frames [⟨⟨.polars, [], []⟩⟩, ⟨⟨.polars, [], []⟩⟩] "vertical" =
      .ok ⟨⟨.polars, [], []⟩⟩ ∧
    concat_frames [⟨⟨.polars, [], []⟩⟩, ⟨⟨.polars, [], []⟩⟩] "vertical" ≠
      .error .schemaMismatch := by decide

/-- C4 (amended): for every pair of well-formed same-backend tables (unique
column names, rectangular rows) whose column-name sets are disjoint and not
both empty, `concat_frames` under mode "vertical" fails with the
schema-mismatch error, while the same pair under mode "diagonal" succeeds
and returns a table whose columns are the union of the two column lists in
order, with each input's cells kept and the missing-value marker filling
the cells of the columns absent from that input. -/
theorem concat_frames_disjoint_modes (f1 f2 : NwDataFrame)
    (hb : f2.native.backend = f1.native.backend)
    (hn1 : f1.native.uniqueNames) (hn2 : f2.native.uniqueNames)
    (hr1 : f1.native.rectangular) (hr2 : f2.native.rectangular)
    (hdisj : ∀ n ∈ f1.native.columns.map Prod.fst, n ∉ f2.native.columns.map Prod.fst)
    (hne : f1.native.columns ≠ [] ∨ f2.native.columns ≠ []) :
    concat_frames [f1, f2] "vertical" = .error .schemaMismatch ∧
    ∃ out, concat_frames [f1, f2] "diagonal" = .ok out ∧
      out.native.columns = f1.native.columns ++ f2.native.columns ∧
      out.native.rows =
        f1.native.rows.map (fun r => r ++ List.replicate f2.native.columns.length Value.null) ++
        f2.native.rows.map (fun r => List.replicate f1.native.columns.length Value.null ++ r) := by
  have hcol : f2.native.columns ≠ f1.native.columns := by
    intro he
    rcases hne with h | h
    · obtain ⟨c, hc⟩ := List.exists_mem_of_ne_nil _ h
      have hc2 : c ∈ f2.native.columns := by rw [he]; exact hc
      exact hdisj c.1 (List.mem_map_of_mem Prod.fst hc) (List.mem_map_of_mem Prod.fst hc2)
    · obtain ⟨c, hc⟩ := List.exists_mem_of_ne_nil _ h
      have hc1 : c ∈ f1.native.columns := by rw [← he]; exact hc
      exact hdisj c.1 (List.mem_map_of_mem Prod.fst hc1) (List.mem_map_of_mem Prod.fst hc)
  constructor
  · simp [concat_frames, nw_concat, vertical_concat, hb, hcol, Except.map]
  · refine ⟨⟨{ backend := f1.native.backend,
               columns := f1.native.columns ++ f2.native.columns,
               rows := f1.native.rows.map
                  (fun r => r ++ List.replicate f2.native.columns.length Value.null) ++
                f2.native.rows.map
                  (fun r => List.replicate f1.native.columns.length Value.null ++ r) }⟩,
      ?_, rfl, rfl⟩
    have hd := diagonal_concat_disjoint_pair f1.native f2.native f1.native.backend
      hn1 hn2 hr1 hr2 hdisj
    simp [concat_frames, nw_concat, hb, hd, Except.map]

theorem concat_frames_disjoint_modes_witness :
    concat_frames [⟨⟨.polars, [("a", .pl .Int64)], [[.intV 1]]⟩⟩,
                   ⟨⟨.polars, [("b", .pl .Utf8)], [[.strV "u"], [.strV "w"]]⟩⟩] "vertical" =
      .error .schemaMismatch ∧
    ∃ out, concat_frames [⟨⟨.polars, [("a", .pl .Int64)], [[.intV 1]]⟩⟩,
                   ⟨⟨.polars, [("b", .pl .Utf8)], [[.strV "u"], [.strV "w"]]⟩⟩] "diagonal" =
        .ok out ∧
      out.native.columns = [("a", .pl .Int64), ("b", .pl .Utf8)] ∧
      out.native.rows = [[.intV 1, .null], [.null, .strV "u"], [.null, .strV "w"]] := by
  obtain ⟨h1, out, h2, h3, h4⟩ := concat_frames_disjoint_modes
    ⟨⟨.polars, [("a", .pl .Int64)], [[.intV 1]]⟩⟩
    ⟨⟨.polars, [("b", .pl .Utf8)], [[.strV "u"], [.strV "w"]]⟩⟩
    rfl
    (by simp [NativeTable.uniqueNames])
    (by simp [NativeTable.uniqueNames])
    (by simp [NativeTable.rectangular])
    (by simp [NativeTable.rectangular])
    (by decide)
    (Or.inl (by decide))
  exact ⟨h1, out, h2, h3.trans (by decide), h4.trans (by decide)⟩
